import Mathlib

/-!
Shallow embedding of the mcp-ARCknowledge repository (src/main.py and src/server.py).

Python dicts with string keys are modelled as insertion-ordered association lists:
assignment to an existing key overwrites the value in place (keeping the key's
position), assignment to a fresh key appends at the end.  The HTTP layer is
modelled by an oracle mapping each URL to either a received response
(status code and body text) or a raised transport exception.  `query_rag`
returns, alongside its result string, the list of HTTP requests it issued, so
that properties about outbound traffic can be stated.
-/

/-- Python membership test `k in d`. -/
def dictContains {α : Type} (d : List (String × α)) (k : String) : Bool :=
  d.any (fun p => p.1 == k)

/-- Python dict assignment `d[k] = v`: overwrite in place when the key exists,
append at the end otherwise. -/
def dictInsert {α : Type} (d : List (String × α)) (k : String) (v : α) :
    List (String × α) :=
  if dictContains d k then d.map (fun p => if p.1 == k then (k, v) else p)
  else d ++ [(k, v)]

/-- Python lookup `d[k]` / `d.get(k)` (first matching key). -/
def dictGet {α : Type} (d : List (String × α)) (k : String) : Option α :=
  (d.find? (fun p => p.1 == k)).map Prod.snd

/-- Python `d.get(k)` on a string-valued dict. -/
def pyGet (d : List (String × String)) (k : String) : Option String :=
  dictGet d k

/-- Little-endian decimal digits of a natural number, with structural fuel. -/
def digitsFuel : Nat → Nat → List Nat
  | 0, _ => []
  | fuel + 1, n => if n = 0 then [] else n % 10 :: digitsFuel fuel (n / 10)

/-- Little-endian decimal digit list of `n`, with `[0]` for zero. -/
def natDigits (n : Nat) : List Nat :=
  if n = 0 then [0] else digitsFuel n n

/-- Python `str(n)` for a natural number: decimal rendering. -/
def natStr (n : Nat) : String :=
  String.mk ((natDigits n).map Nat.digitChar).reverse

/-- Result of attempting one HTTP call to a URL: either a response was received
(status code and body), or a transport-level exception was raised. -/
inductive HttpResult where
  | resp (status : Nat) (body : String)
  | exn (msg : String)
deriving DecidableEq

/-- Record of one outbound HTTP request. -/
structure HttpRequest where
  method : String
  url : String
  headers : List (String × String)
  jsonBody : List (String × String)
deriving DecidableEq

/-- The network oracle: what attempting a request to a given URL yields. -/
abbrev Net := String → HttpResult

/-- The dict comprehension shared by both query_rag variants:
`{id: document_sources[id] for id in source_ids if id in document_sources}`.
One entry per provided id found in the registry, value taken from the registry;
an id keeps its first-occurrence position, later duplicates overwrite in place. -/
def selectSources (registry : List (String × String)) (ids : List String) :
    List (String × String) :=
  ids.foldl (fun acc i =>
    match dictGet registry i with
    | some url => dictInsert acc i url
    | none => acc) []

namespace Main

/-- One record of the durable document_sources.json file: url and description. -/
structure Entry where
  url : String
  description : String
deriving DecidableEq

/-- State of main.py: the in-memory `document_sources` dict together with the
parsed content of the durable document_sources.json file (the empty dict when
the file is absent or unparsable, exactly as the code treats those cases). -/
structure MainState where
  mem : List (String × String)
  durable : List (String × Entry)
deriving DecidableEq

/-- main.py `set_document_source`: requires a url key in the source dict;
assigns id `str(len(file_sources) + 1)`; stores the url in the in-memory dict
and `{url, description}` in the durable file.  No URL syntax validation. -/
def set_document_source (st : MainState) (source : List (String × String)) :
    String × MainState :=
  match pyGet source "url" with
  | none => ("Error: URL is required", st)
  | some url =>
    let source_id := natStr (st.durable.length + 1)
    ("Document source registered with ID: " ++ source_id,
     ⟨dictInsert st.mem source_id url,
      dictInsert st.durable source_id ⟨url, (pyGet source "description").getD ""⟩⟩)

/-- The result line main.py `query_rag` records for one dispatched source. -/
def outcomeLine (net : Net) (source_id url : String) : String :=
  match net url with
  | .resp status body =>
    if status = 200 then "Source " ++ source_id ++ ": " ++ body
    else "Source " ++ source_id ++ ": Failed to retrieve content. Status code: "
      ++ natStr status
  | .exn msg => "Source " ++ source_id ++ ": Error - " ++ msg

/-- The POST request main.py `query_rag` issues for one source. -/
def mkRequest (query url : String) : HttpRequest :=
  ⟨"POST", url,
   [("Content-Type", "application/json"), ("Accept", "application/json")],
   [("chatInput", query)]⟩

/-- main.py `query_rag`: returns the result text together with the list of
HTTP requests issued. -/
def query_rag (registry : List (String × String)) (query : String)
    (source_ids : Option (List String)) (net : Net) : String × List HttpRequest :=
  if registry = [] then ("Error: No document sources registered", [])
  else
    let run := fun (target : List (String × String)) =>
      (String.intercalate "\n" (target.map (fun p => outcomeLine net p.1 p.2)),
       target.map (fun p => mkRequest query p.2))
    match source_ids with
    | none => run registry
    | some ids =>
      if ids = [] then run registry
      else
        let target := selectSources registry ids
        if target = [] then ("Error: No valid source IDs provided", [])
        else run target

/-- One value of the bulk-load JSON document: a bare URL string, a JSON object
(with string fields), or any other JSON value. -/
inductive SourceVal where
  | str (url : String)
  | obj (fields : List (String × String))
  | other
deriving DecidableEq

/-- The loop of main.py `load_document_sources_from_file`: entries are merged
into the in-memory dict one at a time; an entry that is neither a string nor a
dict with a url key makes the loop return an error message at once, keeping the
mutations already performed. -/
def loadLoop (mem : List (String × String)) :
    List (String × SourceVal) → Option String × List (String × String)
  | [] => (none, mem)
  | (source_id, SourceVal.str url) :: rest =>
    loadLoop (dictInsert mem source_id url) rest
  | (source_id, SourceVal.obj fields) :: rest =>
    match pyGet fields "url" with
    | some url => loadLoop (dictInsert mem source_id url) rest
    | none => (some ("Error: Invalid source format for ID " ++ source_id), mem)
  | (source_id, SourceVal.other) :: _ =>
    (some ("Error: Invalid source format for ID " ++ source_id), mem)

/-- main.py `load_document_sources_from_file`, applied to an already-parsed
JSON document (a dict whose values are `SourceVal`s). -/
def load_document_sources_from_file (mem : List (String × String))
    (file_path : String) (doc : List (String × SourceVal)) :
    String × List (String × String) :=
  match loadLoop mem doc with
  | (some err, mem') => (err, mem')
  | (none, mem') =>
    ("Successfully loaded " ++ natStr doc.length ++ " document sources from "
      ++ file_path, mem')

/-- The URL an entry of the bulk-load document contributes, if any: a bare
string contributes itself, a dict contributes its url field. -/
def entryUrl : SourceVal → Option String
  | .str url => some url
  | .obj fields => pyGet fields "url"
  | .other => none

/-- Merging a list of document entries into the in-memory dict, in order. -/
def applyEntries (mem : List (String × String)) (l : List (String × SourceVal)) :
    List (String × String) :=
  l.foldl (fun m e =>
    match entryUrl e.2 with
    | some url => dictInsert m e.1 url
    | none => m) mem

end Main

namespace Server

/-- Characters allowed after the first one in a URL scheme, per urllib.parse. -/
def schemeChar (c : Char) : Bool :=
  c.isAlphanum || c = '+' || c = '-' || c = '.'

/-- Split a character list at its first colon, returning the parts before and
after it. -/
def splitAtColon : List Char → Option (List Char × List Char)
  | [] => none
  | c :: cs =>
    if c = ':' then some ([], cs)
    else
      match splitAtColon cs with
      | some (a, b) => some (c :: a, b)
      | none => none

/-- The scheme and netloc fields of `urllib.parse.urlparse`: the scheme is the
part before the first colon when that part is a letter followed by scheme
characters (otherwise empty); the netloc is the part after a leading `//` of
the remainder, up to the next `/`, `?` or `#` (otherwise empty). -/
def urlparse_scheme_netloc (url : String) : String × String :=
  let cs := url.data
  let schemeRest : List Char × List Char :=
    match splitAtColon cs with
    | some (a, b) =>
      match a with
      | [] => ([], cs)
      | c :: cs' => if c.isAlpha && cs'.all schemeChar then (c :: cs', b) else ([], cs)
    | none => ([], cs)
  let netloc : List Char :=
    match schemeRest.2 with
    | '/' :: '/' :: r => r.takeWhile (fun c => c ≠ '/' && c ≠ '?' && c ≠ '#')
    | _ => []
  (String.mk schemeRest.1, String.mk netloc)

/-- server.py `set_document_source`: rejects a URL whose parsed scheme or
netloc is empty; otherwise assigns id `str(len(document_sources) + 1)` and
stores the url in the in-memory dict.  (The optional description field of the
submitted DocumentSource is not used.) -/
def set_document_source (registry : List (String × String)) (url : String) :
    String × List (String × String) :=
  let parsed := urlparse_scheme_netloc url
  if parsed.1 = "" ∨ parsed.2 = "" then ("Error: Invalid URL format", registry)
  else
    let source_id := natStr (registry.length + 1)
    ("Document source registered with ID: " ++ source_id,
     dictInsert registry source_id url)

/-- The result line server.py `query_rag` records for one dispatched source. -/
def outcomeLine (net : Net) (source_id url : String) : String :=
  match net url with
  | .resp status body =>
    if status = 200 then
      "Source " ++ source_id ++ ": Retrieved " ++ natStr body.length ++ " characters"
    else "Source " ++ source_id ++ ": Failed to retrieve content"
  | .exn msg => "Source " ++ source_id ++ ": Error - " ++ msg

/-- The request server.py `query_rag` issues for one source: `requests.get(url)`
with no custom headers and no body. -/
def mkRequest (url : String) : HttpRequest :=
  ⟨"GET", url, [], []⟩

/-- server.py `query_rag`: the same registry/selection logic as main.py, but
the dispatch is a plain GET and the success line reports the body length. -/
def query_rag (registry : List (String × String)) (query : String)
    (source_ids : Option (List String)) (net : Net) : String × List HttpRequest :=
  if registry = [] then ("Error: No document sources registered", [])
  else
    let run := fun (target : List (String × String)) =>
      (String.intercalate "\n" (target.map (fun p => outcomeLine net p.1 p.2)),
       target.map (fun p => mkRequest p.2))
    match source_ids with
    | none => run registry
    | some ids =>
      if ids = [] then run registry
      else
        let target := selectSources registry ids
        if target = [] then ("Error: No valid source IDs provided", [])
        else run target

end Server

/-- Registry states reachable in server.py through a sequence of
`set_document_source` calls, starting from the empty registry the process
begins with. -/
inductive ServerReach : List (String × String) → Prop where
  | init : ServerReach []
  | step (r : List (String × String)) (url : String) (h : ServerReach r) :
      ServerReach (Server.set_document_source r url).2

/-- First-occurrence accumulation step: keep the list unchanged when the
element is already present, append it otherwise. -/
def firstOccStep (ks : List String) (x : String) : List String :=
  if x ∈ ks then ks else ks ++ [x]

/-- The distinct elements of a list, in order of first occurrence. -/
def firstOcc (l : List String) : List String :=
  l.foldl firstOccStep []

/-- Numeric value of a little-endian decimal digit list. -/
def undigits : List Nat → Nat
  | [] => 0
  | d :: ds => d + 10 * undigits ds

section HelperLemmas

theorem dictContains_iff {α : Type} (d : List (String × α)) (k : String) :
    dictContains d k = true ↔ k ∈ d.map Prod.fst := by
  simp only [dictContains, List.any_eq_true, beq_iff_eq, List.mem_map]

theorem dictContains_eq_false {α : Type} (d : List (String × α)) (k : String) :
    dictContains d k = false ↔ k ∉ d.map Prod.fst := by
  rw [← Bool.not_eq_true, not_iff_not]
  exact dictContains_iff d k

theorem dictGet_eq_none {α : Type} (d : List (String × α)) (k : String) :
    dictGet d k = none ↔ dictContains d k = false := by
  simp only [dictGet, Option.map_eq_none', List.find?_eq_none, dictContains,
    List.any_eq_false]

theorem dictGet_isSome_of_contains {α : Type} (d : List (String × α)) (k : String)
    (h : dictContains d k = true) : ∃ v, dictGet d k = some v := by
  cases hg : dictGet d k with
  | none =>
    rw [dictGet_eq_none] at hg
    rw [hg] at h
    exact absurd h (by simp)
  | some v => exact ⟨v, rfl⟩

theorem dictInsert_map_fst {α : Type} (d : List (String × α)) (k : String) (v : α) :
    (dictInsert d k v).map Prod.fst =
      if k ∈ d.map Prod.fst then d.map Prod.fst else d.map Prod.fst ++ [k] := by
  by_cases h : dictContains d k = true
  · rw [dictInsert, if_pos h, if_pos ((dictContains_iff d k).mp h), List.map_map]
    apply List.map_congr_left
    intro p _
    by_cases hpk : (p.1 == k) = true
    · simp only [Function.comp_apply, if_pos hpk]
      exact (beq_iff_eq.mp hpk).symm
    · simp only [Function.comp_apply, if_neg hpk]
  · have h' : dictContains d k = false := by
      cases hb : dictContains d k
      · rfl
      · exact absurd hb h
    rw [dictInsert, if_neg h, if_neg ((dictContains_eq_false d k).mp h'),
      List.map_append]
    rfl

theorem mem_dictInsert {α : Type} (d : List (String × α)) (k : String) (v : α)
    (p : String × α) (hp : p ∈ dictInsert d k v) : p ∈ d ∨ p = (k, v) := by
  unfold dictInsert at hp
  by_cases h : dictContains d k = true
  · rw [if_pos h] at hp
    rcases List.mem_map.mp hp with ⟨q, hq, rfl⟩
    by_cases hqk : (q.1 == k) = true
    · right
      rw [if_pos hqk]
    · left
      rw [if_neg hqk]
      exact hq
  · rw [if_neg h] at hp
    rcases List.mem_append.mp hp with h1 | h2
    · left; exact h1
    · right; simpa using h2

theorem dictGet_append_fresh {α : Type} (d : List (String × α)) (k : String) (v : α)
    (h : dictContains d k = false) : dictGet (d ++ [(k, v)]) k = some v := by
  induction d with
  | nil => simp [dictGet]
  | cons q d ih =>
    have hq : (q.1 == k) = false := by
      simp only [dictContains, List.any_cons, Bool.or_eq_false_iff] at h
      exact h.1
    have hd : dictContains d k = false := by
      simp only [dictContains, List.any_cons, Bool.or_eq_false_iff] at h
      exact h.2
    simp only [List.cons_append, dictGet, List.find?_cons, hq]
    exact ih hd

theorem undigits_digitsFuel (fuel : Nat) :
    ∀ n : Nat, n ≤ fuel → undigits (digitsFuel fuel n) = n := by
  induction fuel with
  | zero =>
    intro n hn
    have h0 : n = 0 := Nat.le_zero.mp hn
    subst h0
    rfl
  | succ fuel ih =>
    intro n hn
    by_cases h0 : n = 0
    · subst h0
      simp [digitsFuel, undigits]
    · simp only [digitsFuel, if_neg h0, undigits]
      have hlt : n / 10 < n := Nat.div_lt_self (Nat.pos_of_ne_zero h0) (by norm_num)
      rw [ih (n / 10) (by omega), Nat.mod_add_div]

theorem digitsFuel_lt_ten (fuel : Nat) :
    ∀ n d : Nat, d ∈ digitsFuel fuel n → d < 10 := by
  induction fuel with
  | zero =>
    intro n d h
    simp [digitsFuel] at h
  | succ fuel ih =>
    intro n d h
    simp only [digitsFuel] at h
    by_cases h0 : n = 0
    · rw [if_pos h0] at h
      simp at h
    · rw [if_neg h0] at h
      rcases List.mem_cons.mp h with h1 | h2
      · subst h1
        exact Nat.mod_lt _ (by norm_num)
      · exact ih _ _ h2

theorem undigits_natDigits (n : Nat) : undigits (natDigits n) = n := by
  by_cases h : n = 0
  · subst h
    rfl
  · rw [natDigits, if_neg h]
    exact undigits_digitsFuel n n le_rfl

theorem natDigits_lt_ten (n d : Nat) (h : d ∈ natDigits n) : d < 10 := by
  rw [natDigits] at h
  by_cases h0 : n = 0
  · rw [if_pos h0] at h
    simp at h
    omega
  · rw [if_neg h0] at h
    exact digitsFuel_lt_ten n n d h

theorem digitChar_inj_lt (d e : Nat) (hd : d < 10) (he : e < 10)
    (h : Nat.digitChar d = Nat.digitChar e) : d = e := by
  have key : ∀ a b : Fin 10, Nat.digitChar a.1 = Nat.digitChar b.1 → a = b := by decide
  exact congrArg Fin.val (key ⟨d, hd⟩ ⟨e, he⟩ h)

theorem map_digitChar_inj :
    ∀ l m : List Nat, (∀ d ∈ l, d < 10) → (∀ d ∈ m, d < 10) →
      l.map Nat.digitChar = m.map Nat.digitChar → l = m := by
  intro l
  induction l with
  | nil =>
    intro m _ _ h
    cases m with
    | nil => rfl
    | cons e m => simp at h
  | cons d l ih =>
    intro m hl hm h
    cases m with
    | nil => simp at h
    | cons e m =>
      simp only [List.map_cons, List.cons.injEq] at h
      have hde : d = e :=
        digitChar_inj_lt d e (hl d (List.mem_cons_self d l))
          (hm e (List.mem_cons_self e m)) h.1
      subst hde
      rw [ih m (fun x hx => hl x (List.mem_cons_of_mem _ hx))
        (fun x hx => hm x (List.mem_cons_of_mem _ hx)) h.2]

theorem natStr_inj (a b : Nat) (h : natStr a = natStr b) : a = b := by
  unfold natStr at h
  have h1 : ((natDigits a).map Nat.digitChar).reverse
      = ((natDigits b).map Nat.digitChar).reverse := congrArg String.data h
  have h2 := List.reverse_injective h1
  have h3 := map_digitChar_inj _ _ (fun d hd => natDigits_lt_ten a d hd)
    (fun d hd => natDigits_lt_ten b d hd) h2
  calc a = undigits (natDigits a) := (undigits_natDigits a).symm
    _ = undigits (natDigits b) := by rw [h3]
    _ = b := undigits_natDigits b

theorem selectSources_go_fst (registry : List (String × String)) :
    ∀ (ids : List String) (acc : List (String × String)),
      (ids.foldl (fun acc i =>
          match dictGet registry i with
          | some url => dictInsert acc i url
          | none => acc) acc).map Prod.fst =
        (ids.filter (fun i => dictContains registry i)).foldl firstOccStep
          (acc.map Prod.fst) := by
  intro ids
  induction ids with
  | nil => intro acc; rfl
  | cons i ids ih =>
    intro acc
    rw [List.foldl_cons, List.filter_cons]
    by_cases h : dictContains registry i = true
    · rcases dictGet_isSome_of_contains registry i h with ⟨url, hu⟩
      simp only [hu, if_pos h, List.foldl_cons]
      rw [ih (dictInsert acc i url)]
      congr 1
      rw [dictInsert_map_fst, firstOccStep]
    · have h' : dictContains registry i = false := by
        cases hb : dictContains registry i
        · rfl
        · exact absurd hb h
      have hg : dictGet registry i = none := (dictGet_eq_none registry i).mpr h'
      simp only [hg, if_neg h]
      exact ih acc

theorem selectSources_fst (registry : List (String × String)) (ids : List String) :
    (selectSources registry ids).map Prod.fst =
      firstOcc (ids.filter (fun i => dictContains registry i)) := by
  rw [selectSources, firstOcc, selectSources_go_fst registry ids []]
  rfl

theorem foldl_firstOccStep_nodup :
    ∀ (l ks : List String), ks.Nodup → (l.foldl firstOccStep ks).Nodup := by
  intro l
  induction l with
  | nil => intro ks h; exact h
  | cons x l ih =>
    intro ks h
    rw [List.foldl_cons]
    apply ih
    rw [firstOccStep]
    by_cases hx : x ∈ ks
    · rw [if_pos hx]; exact h
    · rw [if_neg hx]
      simp [List.nodup_append, h, hx]

theorem firstOcc_nodup (l : List String) : (firstOcc l).Nodup :=
  foldl_firstOccStep_nodup l [] List.nodup_nil

theorem selectSources_go_mem (registry : List (String × String)) :
    ∀ (ids : List String) (acc : List (String × String)) (p : String × String),
      p ∈ ids.foldl (fun acc i =>
          match dictGet registry i with
          | some url => dictInsert acc i url
          | none => acc) acc →
      p ∈ acc ∨ (p.1 ∈ ids ∧ dictGet registry p.1 = some p.2) := by
  intro ids
  induction ids with
  | nil => intro acc p hp; left; exact hp
  | cons i ids ih =>
    intro acc p hp
    rw [List.foldl_cons] at hp
    cases hg : dictGet registry i with
    | none =>
      simp only [hg] at hp
      rcases ih acc p hp with h1 | h2
      · left; exact h1
      · right; exact ⟨List.mem_cons_of_mem _ h2.1, h2.2⟩
    | some url =>
      simp only [hg] at hp
      rcases ih (dictInsert acc i url) p hp with h1 | h2
      · rcases mem_dictInsert acc i url p h1 with h3 | h4
        · left; exact h3
        · right
          subst h4
          exact ⟨List.mem_cons_self i ids, hg⟩
      · right; exact ⟨List.mem_cons_of_mem _ h2.1, h2.2⟩

theorem selectSources_mem (registry : List (String × String)) (ids : List String)
    (p : String × String) (hp : p ∈ selectSources registry ids) :
    p.1 ∈ ids ∧ dictGet registry p.1 = some p.2 := by
  rcases selectSources_go_mem registry ids [] p hp with h1 | h2
  · simp at h1
  · exact h2

theorem selectSources_all_invalid (registry : List (String × String))
    (ids : List String) (h : ∀ i ∈ ids, dictContains registry i = false) :
    selectSources registry ids = [] := by
  rw [selectSources]
  induction ids with
  | nil => rfl
  | cons i ids ih =>
    rw [List.foldl_cons]
    have hg : dictGet registry i = none :=
      (dictGet_eq_none registry i).mpr (h i (List.mem_cons_self i ids))
    simp only [hg]
    exact ih (fun j hj => h j (List.mem_cons_of_mem _ hj))

theorem main_query_rag_none (registry : List (String × String)) (q : String)
    (net : Net) (h : registry ≠ []) :
    Main.query_rag registry q none net =
      (String.intercalate "\n" (registry.map fun p => Main.outcomeLine net p.1 p.2),
       registry.map fun p => Main.mkRequest q p.2) := by
  unfold Main.query_rag
  rw [if_neg h]

theorem main_query_rag_some (registry : List (String × String)) (q : String)
    (ids : List String) (net : Net) (hreg : registry ≠ []) (hids : ids ≠ [])
    (hsel : selectSources registry ids ≠ []) :
    Main.query_rag registry q (some ids) net =
      (String.intercalate "\n"
         ((selectSources registry ids).map fun p => Main.outcomeLine net p.1 p.2),
       (selectSources registry ids).map fun p => Main.mkRequest q p.2) := by
  unfold Main.query_rag
  rw [if_neg hreg]
  show (if ids = [] then _ else _) = _
  rw [if_neg hids]
  show (if selectSources registry ids = [] then _ else _) = _
  rw [if_neg hsel]

theorem main_query_rag_some_invalid (registry : List (String × String)) (q : String)
    (ids : List String) (net : Net) (hreg : registry ≠ []) (hids : ids ≠ [])
    (hsel : selectSources registry ids = []) :
    Main.query_rag registry q (some ids) net =
      ("Error: No valid source IDs provided", []) := by
  unfold Main.query_rag
  rw [if_neg hreg]
  show (if ids = [] then _ else _) = _
  rw [if_neg hids]
  show (if selectSources registry ids = [] then _ else _) = _
  rw [if_pos hsel]

theorem server_query_rag_some (registry : List (String × String)) (q : String)
    (ids : List String) (net : Net) (hreg : registry ≠ []) (hids : ids ≠ [])
    (hsel : selectSources registry ids ≠ []) :
    Server.query_rag registry q (some ids) net =
      (String.intercalate "\n"
         ((selectSources registry ids).map fun p => Server.outcomeLine net p.1 p.2),
       (selectSources registry ids).map fun p => Server.mkRequest p.2) := by
  unfold Server.query_rag
  rw [if_neg hreg]
  show (if ids = [] then _ else _) = _
  rw [if_neg hids]
  show (if selectSources registry ids = [] then _ else _) = _
  rw [if_neg hsel]

theorem server_query_rag_some_invalid (registry : List (String × String)) (q : String)
    (ids : List String) (net : Net) (hreg : registry ≠ []) (hids : ids ≠ [])
    (hsel : selectSources registry ids = []) :
    Server.query_rag registry q (some ids) net =
      ("Error: No valid source IDs provided", []) := by
  unfold Server.query_rag
  rw [if_neg hreg]
  show (if ids = [] then _ else _) = _
  rw [if_neg hids]
  show (if selectSources registry ids = [] then _ else _) = _
  rw [if_pos hsel]

end HelperLemmas

/-- The part of a main.py result line after the `Source <id>: ` prefix. -/
def mainOutcomeBody (net : Net) (url : String) : String :=
  match net url with
  | .resp status body =>
    if status = 200 then body
    else "Failed to retrieve content. Status code: " ++ natStr status
  | .exn msg => "Error - " ++ msg

section HelperLemmas2

theorem outcomeLine_eq_prefix_body (net : Net) (source_id url : String) :
    Main.outcomeLine net source_id url =
      "Source " ++ source_id ++ ": " ++ mainOutcomeBody net url := by
  cases hnet : net url with
  | resp status body =>
    by_cases hs : status = 200
    · simp [Main.outcomeLine, mainOutcomeBody, hnet, hs, String.append_assoc]
    · have e1 : (": Failed to retrieve content. Status code: " : String)
          = ": " ++ "Failed to retrieve content. Status code: " := by decide
      simp [Main.outcomeLine, mainOutcomeBody, hnet, hs, String.append_assoc]
      rw [e1, String.append_assoc]
  | exn msg =>
    have e2 : (": Error - " : String) = ": " ++ "Error - " := by decide
    simp [Main.outcomeLine, mainOutcomeBody, hnet, String.append_assoc]
    rw [e2, String.append_assoc]

theorem loadLoop_cons_valid (mem : List (String × String)) (source_id : String)
    (e : Main.SourceVal) (url : String) (rest : List (String × Main.SourceVal))
    (h : Main.entryUrl e = some url) :
    Main.loadLoop mem ((source_id, e) :: rest) =
      Main.loadLoop (dictInsert mem source_id url) rest := by
  cases e with
  | str u =>
    simp only [Main.entryUrl, Option.some.injEq] at h
    subst h
    rfl
  | obj fields =>
    simp only [Main.entryUrl] at h
    simp [Main.loadLoop, h]
  | other => simp [Main.entryUrl] at h

theorem loadLoop_cons_invalid (mem : List (String × String)) (source_id : String)
    (e : Main.SourceVal) (rest : List (String × Main.SourceVal))
    (h : Main.entryUrl e = none) :
    Main.loadLoop mem ((source_id, e) :: rest) =
      (some ("Error: Invalid source format for ID " ++ source_id), mem) := by
  cases e with
  | str u => simp [Main.entryUrl] at h
  | obj fields =>
    simp only [Main.entryUrl] at h
    simp [Main.loadLoop, h]
  | other => rfl

theorem loadLoop_bad_entry (pre : List (String × Main.SourceVal)) :
    ∀ (mem : List (String × String)) (source_id : String) (bad : Main.SourceVal)
      (rest : List (String × Main.SourceVal)),
      (∀ e ∈ pre, (Main.entryUrl e.2).isSome = true) → Main.entryUrl bad = none →
      Main.loadLoop mem (pre ++ (source_id, bad) :: rest) =
        (some ("Error: Invalid source format for ID " ++ source_id),
         Main.applyEntries mem pre) := by
  induction pre with
  | nil =>
    intro mem source_id bad rest _ hbad
    rw [List.nil_append]
    simpa [Main.applyEntries] using loadLoop_cons_invalid mem source_id bad rest hbad
  | cons e pre ih =>
    intro mem source_id bad rest hpre hbad
    obtain ⟨eid, ev⟩ := e
    have he : (Main.entryUrl ev).isSome = true := hpre ⟨eid, ev⟩ (List.mem_cons_self _ _)
    rcases Option.isSome_iff_exists.mp he with ⟨url, hu⟩
    rw [List.cons_append, loadLoop_cons_valid mem eid ev url _ hu,
      ih (dictInsert mem eid url) source_id bad rest
        (fun x hx => hpre x (List.mem_cons_of_mem _ hx)) hbad]
    simp only [Main.applyEntries, List.foldl_cons, hu]

theorem serverReach_keys (r : List (String × String)) (h : ServerReach r) :
    r.map Prod.fst = (List.range r.length).map (fun i => natStr (i + 1)) := by
  induction h with
  | init => rfl
  | step r url hr ih =>
    rw [Server.set_document_source]
    by_cases hv : (Server.urlparse_scheme_netloc url).1 = ""
        ∨ (Server.urlparse_scheme_netloc url).2 = ""
    · rw [if_pos hv]
      exact ih
    · rw [if_neg hv]
      have hfresh : natStr (r.length + 1) ∉ r.map Prod.fst := by
        rw [ih]
        intro hmem
        rcases List.mem_map.mp hmem with ⟨i, hi, heq⟩
        have hin := natStr_inj _ _ heq
        have hlt := List.mem_range.mp hi
        omega
      have hcont : dictContains r (natStr (r.length + 1)) = false :=
        (dictContains_eq_false r _).mpr hfresh
      show (dictInsert r (natStr (r.length + 1)) url).map Prod.fst
          = (List.range (dictInsert r (natStr (r.length + 1)) url).length).map
              (fun i => natStr (i + 1))
      unfold dictInsert
      rw [if_neg (by rw [hcont]; exact Bool.false_ne_true),
        List.map_append, List.length_append, ih]
      simp [List.range_succ]

theorem main_query_rag_some_nil (registry : List (String × String)) (q : String)
    (net : Net) (h : registry ≠ []) :
    Main.query_rag registry q (some []) net = Main.query_rag registry q none net := by
  rw [main_query_rag_none registry q net h]
  unfold Main.query_rag
  rw [if_neg h]
  show (if ([] : List String) = [] then _ else _) = _
  rw [if_pos rfl]

end HelperLemmas2

/-- A network oracle where every URL answers 200 with body x. -/
def constNet : Net := fun _ => HttpResult.resp 200 "x"

/-- A network oracle with one healthy endpoint, one endpoint answering 500 and
one unreachable endpoint. -/
def mixedNet : Net := fun u =>
  if u = "http://a.com" then HttpResult.resp 200 "data"
  else if u = "http://b.com" then HttpResult.resp 500 "oops"
  else HttpResult.exn "unreachable"

/-- C1: with a non-empty registry and no source filter, query_rag returns one
result line per registered source, in the registry's insertion order, each line
prefixed with its source id and joined by newlines; a per-source HTTP failure
or transport failure is folded into that source's own line (the body after the
prefix) and never aborts the query or suppresses the other sources' lines. -/
theorem c1_query_fanout_outcome_per_source (registry : List (String × String))
    (q : String) (net : Net) (h : registry ≠ []) :
    (Main.query_rag registry q none net).1 =
      String.intercalate "\n"
        (registry.map fun p => "Source " ++ p.1 ++ ": " ++ mainOutcomeBody net p.2) := by
  rw [main_query_rag_none registry q net h]
  show String.intercalate "\n" (registry.map fun p => Main.outcomeLine net p.1 p.2) = _
  congr 1
  apply List.map_congr_left
  intro p _
  exact outcomeLine_eq_prefix_body net p.1 p.2

/-- Witness for C1: three concrete sources, answering 200, 500 and a transport
failure respectively; all three outcome lines appear, in insertion order. -/
theorem c1_witness :
    ([("1", "http://a.com"), ("2", "http://b.com"), ("3", "http://c.com")] :
        List (String × String)) ≠ [] ∧
    (Main.query_rag
        [("1", "http://a.com"), ("2", "http://b.com"), ("3", "http://c.com")]
        "q" none mixedNet).1 =
      String.intercalate "\n"
        ([("1", "http://a.com"), ("2", "http://b.com"), ("3", "http://c.com")].map
          fun p => "Source " ++ p.1 ++ ": " ++ mainOutcomeBody mixedNet p.2) :=
  ⟨by decide,
   c1_query_fanout_outcome_per_source
     [("1", "http://a.com"), ("2", "http://b.com"), ("3", "http://c.com")]
     "q" mixedNet (by decide)⟩

/-- C2: a query against the empty registry fails with the registry-empty error
message and issues no HTTP request, for every query text, every choice of
source ids and every network behavior, in both variants. -/
theorem c2_query_empty_registry (q : String) (ids : Option (List String)) (net : Net) :
    Main.query_rag [] q ids net = ("Error: No document sources registered", []) ∧
    Server.query_rag [] q ids net = ("Error: No document sources registered", []) :=
  ⟨rfl, rfl⟩

/-- C3 counterexample: a 201 response — a 2xx status — is recorded as a failure
outcome carrying the status code, not as a successful outcome carrying the
response body. -/
theorem c3_counterexample :
    (Main.query_rag [("1", "http://a.com")] "q" none
        (fun _ => HttpResult.resp 201 "data")).1
      = "Source 1: Failed to retrieve content. Status code: 201" ∧
    (Main.query_rag [("1", "http://a.com")] "q" none
        (fun _ => HttpResult.resp 201 "data")).1 ≠ "Source 1: data" := by
  exact ⟨by decide, by decide⟩

/-- C3 amended, per variant.  In main.py: a response with status exactly 200 is
recorded as a successful outcome carrying the response body; a response with
any other status (other 2xx codes included) is recorded as a failure outcome
carrying the status code.  In server.py: a 200 response is recorded as a
successful outcome carrying the body's character count rather than the body;
any other status is recorded as a failure outcome without the status code.  In
both variants a transport-level exception is recorded as a failure outcome
carrying the exception message. -/
theorem c3_amended_outcome_interpretation (source_id url : String) (net : Net) :
    (∀ body, net url = HttpResult.resp 200 body →
        Main.outcomeLine net source_id url
            = "Source " ++ source_id ++ ": " ++ body ∧
        Server.outcomeLine net source_id url
            = "Source " ++ source_id ++ ": Retrieved " ++ natStr body.length
              ++ " characters") ∧
    (∀ status body, net url = HttpResult.resp status body → status ≠ 200 →
        Main.outcomeLine net source_id url =
          "Source " ++ source_id ++ ": Failed to retrieve content. Status code: "
            ++ natStr status ∧
        Server.outcomeLine net source_id url
            = "Source " ++ source_id ++ ": Failed to retrieve content") ∧
    (∀ msg, net url = HttpResult.exn msg →
        Main.outcomeLine net source_id url
            = "Source " ++ source_id ++ ": Error - " ++ msg ∧
        Server.outcomeLine net source_id url
            = "Source " ++ source_id ++ ": Error - " ++ msg) := by
  refine ⟨?_, ?_, ?_⟩
  · intro body hb
    constructor
    · simp [Main.outcomeLine, hb]
    · simp [Server.outcomeLine, hb]
  · intro status body hb hs
    constructor
    · simp [Main.outcomeLine, hb, hs]
    · simp [Server.outcomeLine, hb, hs]
  · intro msg hm
    constructor
    · simp [Main.outcomeLine, hm]
    · simp [Server.outcomeLine, hm]

/-- Witness for C3's amended theorem: a 500 response yields main.py's failure
line carrying the status code and server.py's failure line without it. -/
theorem c3_amended_witness :
    (fun _ : String => HttpResult.resp 500 "oops") "http://b.com"
      = HttpResult.resp 500 "oops" ∧
    (500 : Nat) ≠ 200 ∧
    (Main.outcomeLine (fun _ => HttpResult.resp 500 "oops") "1" "http://b.com"
        = "Source 1: Failed to retrieve content. Status code: " ++ natStr 500 ∧
     Server.outcomeLine (fun _ => HttpResult.resp 500 "oops") "1" "http://b.com"
        = "Source 1: Failed to retrieve content") :=
  ⟨rfl, by decide,
   (c3_amended_outcome_interpretation "1" "http://b.com"
       (fun _ => HttpResult.resp 500 "oops")).2.1 500 "oops" rfl (by decide)⟩

/-- C4 counterexample: bulk-loading a document whose second entry lacks a url
field aborts with the format error, but the first entry has already been
merged: the registry is not left as it was before the call. -/
theorem c4_counterexample :
    Main.load_document_sources_from_file [] "config.json"
        [("1", Main.SourceVal.str "http://a.com"),
         ("2", Main.SourceVal.obj [("description", "no url")])]
      = ("Error: Invalid source format for ID 2", [("1", "http://a.com")]) ∧
    ([("1", "http://a.com")] : List (String × String)) ≠ [] := by
  exact ⟨by decide, by decide⟩

/-- C4 amended: bulk-load aborts with a format error naming the first invalid
entry's id; the document entries before the invalid one have already been
merged into the in-memory registry and remain merged; the entries from the
invalid one on are not merged. -/
theorem c4_amended_load_aborts_keeping_prefix (mem : List (String × String))
    (file_path : String) (pre : List (String × Main.SourceVal)) (source_id : String)
    (bad : Main.SourceVal) (rest : List (String × Main.SourceVal))
    (hpre : ∀ e ∈ pre, (Main.entryUrl e.2).isSome = true)
    (hbad : Main.entryUrl bad = none) :
    Main.load_document_sources_from_file mem file_path (pre ++ (source_id, bad) :: rest)
      = ("Error: Invalid source format for ID " ++ source_id,
         Main.applyEntries mem pre) := by
  unfold Main.load_document_sources_from_file
  rw [loadLoop_bad_entry pre mem source_id bad rest hpre hbad]

/-- Witness for C4's amended theorem: a three-entry document whose middle entry
has no url aborts naming id 2, keeping exactly the first entry. -/
theorem c4_amended_witness :
    Main.entryUrl (Main.SourceVal.obj [("description", "no url")]) = none ∧
    Main.load_document_sources_from_file [] "config.json"
        ([("1", Main.SourceVal.str "http://a.com")]
          ++ ("2", Main.SourceVal.obj [("description", "no url")])
            :: [("3", Main.SourceVal.str "http://c.com")])
      = ("Error: Invalid source format for ID 2",
         Main.applyEntries [] [("1", Main.SourceVal.str "http://a.com")]) :=
  ⟨by decide,
   c4_amended_load_aborts_keeping_prefix [] "config.json"
     [("1", Main.SourceVal.str "http://a.com")] "2"
     (Main.SourceVal.obj [("description", "no url")])
     [("3", Main.SourceVal.str "http://c.com")] (by decide) (by decide)⟩

/-- C5 counterexample: main.py registers "notaurl" — a URL with neither scheme
nor host — successfully: it returns id 1 and mutates both the in-memory
registry and the durable store instead of rejecting the request. -/
theorem c5_counterexample :
    Main.set_document_source ⟨[], []⟩ [("url", "notaurl")]
      = ("Document source registered with ID: 1",
         ⟨[("1", "notaurl")], [("1", ⟨"notaurl", ""⟩)]⟩) ∧
    Server.urlparse_scheme_netloc "notaurl" = ("", "") := by
  exact ⟨by decide, by decide⟩

/-- C5 amended: in the server.py variant, registration validates the URL: a URL
whose parsed scheme or netloc is empty is rejected with the validation error
and the registry is unchanged (this variant has no durable store), while a URL
with both parts nonempty is stored under the next id, which is returned in the
confirmation.  The main.py variant performs no URL syntax validation and
accepts any source dict containing a url key. -/
theorem c5_amended_server_register_validation (registry : List (String × String))
    (url : String) :
    (((Server.urlparse_scheme_netloc url).1 = ""
        ∨ (Server.urlparse_scheme_netloc url).2 = "") →
      Server.set_document_source registry url = ("Error: Invalid URL format", registry)) ∧
    ((Server.urlparse_scheme_netloc url).1 ≠ ""
        → (Server.urlparse_scheme_netloc url).2 ≠ "" →
      Server.set_document_source registry url =
        ("Document source registered with ID: " ++ natStr (registry.length + 1),
         dictInsert registry (natStr (registry.length + 1)) url)) := by
  constructor
  · intro h
    unfold Server.set_document_source
    rw [if_pos h]
  · intro h1 h2
    unfold Server.set_document_source
    rw [if_neg (not_or.mpr ⟨h1, h2⟩)]

/-- Witness for C5's amended theorem: a well-formed URL is accepted and stored
under id 1 in the empty registry. -/
theorem c5_amended_witness :
    (Server.urlparse_scheme_netloc "http://example.com").1 ≠ "" ∧
    (Server.urlparse_scheme_netloc "http://example.com").2 ≠ "" ∧
    Server.set_document_source [] "http://example.com"
      = ("Document source registered with ID: " ++ natStr 1,
         dictInsert [] (natStr 1) "http://example.com") :=
  ⟨by decide, by decide,
   (c5_amended_server_register_validation [] "http://example.com").2
     (by decide) (by decide)⟩

/-- C6 counterexample: the server.py variant dispatches with a GET that carries
no headers and no body — not a POST with JSON headers and a query key. -/
theorem c6_counterexample :
    (Server.query_rag [("1", "http://a.com")] "q" none constNet).2
      = [⟨"GET", "http://a.com", [], []⟩] ∧
    (⟨"GET", "http://a.com", [], []⟩ : HttpRequest).method ≠ "POST" := by
  exact ⟨by decide, by decide⟩

/-- C6 amended: in main.py, one HTTP POST per targeted source is issued to the
source's URL, with the Content-Type and Accept headers both set to
application/json and a JSON body carrying the query text under the chatInput
key — both when targeting the whole registry and when targeting an explicit
valid selection.  The server.py variant instead issues a GET with no headers
and no body. -/
theorem c6_amended_post_contract (registry : List (String × String)) (q : String)
    (net : Net) (h : registry ≠ []) :
    (Main.query_rag registry q none net).2
      = registry.map (fun p => Main.mkRequest q p.2) ∧
    (∀ ids : List String, ids ≠ [] → selectSources registry ids ≠ [] →
        (Main.query_rag registry q (some ids) net).2 =
          (selectSources registry ids).map (fun p => Main.mkRequest q p.2)) ∧
    (∀ u : String, Main.mkRequest q u =
        ⟨"POST", u,
         [("Content-Type", "application/json"), ("Accept", "application/json")],
         [("chatInput", q)]⟩) := by
  refine ⟨?_, ?_, fun u => rfl⟩
  · rw [main_query_rag_none registry q net h]
  · intro ids hids hsel
    rw [main_query_rag_some registry q ids net h hids hsel]

/-- Witness for C6's amended theorem: one registered source receives exactly
one POST with the JSON headers and the chatInput body. -/
theorem c6_amended_witness :
    ([("1", "http://a.com")] : List (String × String)) ≠ [] ∧
    (Main.query_rag [("1", "http://a.com")] "q" none constNet).2
      = [⟨"POST", "http://a.com",
          [("Content-Type", "application/json"), ("Accept", "application/json")],
          [("chatInput", "q")]⟩] :=
  ⟨by decide, by
    rw [(c6_amended_post_contract [("1", "http://a.com")] "q" constNet (by decide)).1]
    rfl⟩

/-- C7 counterexample: a source registered with an apiKey field has the key
stored nowhere, and the dispatch to that source carries only the Content-Type
and Accept headers — no request header carries the key. -/
theorem c7_counterexample :
    Main.set_document_source ⟨[], []⟩
        [("url", "http://a.com"), ("apiKey", "secret-key")]
      = ("Document source registered with ID: 1",
         ⟨[("1", "http://a.com")], [("1", ⟨"http://a.com", ""⟩)]⟩) ∧
    (Main.query_rag [("1", "http://a.com")] "q" none constNet).2
      = [⟨"POST", "http://a.com",
          [("Content-Type", "application/json"), ("Accept", "application/json")],
          [("chatInput", "q")]⟩] ∧
    "secret-key" ∉ ([("Content-Type", "application/json"),
        ("Accept", "application/json")].map Prod.snd) := by
  exact ⟨by decide, by decide, by decide⟩

/-- C7 amended: the code does not support API keys: registration stores only
the url and the description fields of the submitted source dict (any apiKey
field is discarded — it reaches neither memory, nor the durable store, nor the
confirmation message), and every request query_rag dispatches carries exactly
the Content-Type and Accept headers, so no dispatch ever carries a key. -/
theorem c7_amended_no_api_key_support (st : Main.MainState)
    (source : List (String × String)) (url : String)
    (hurl : pyGet source "url" = some url)
    (registry : List (String × String)) (q : String) (ids : Option (List String))
    (net : Net) :
    Main.set_document_source st source =
      ("Document source registered with ID: " ++ natStr (st.durable.length + 1),
       ⟨dictInsert st.mem (natStr (st.durable.length + 1)) url,
        dictInsert st.durable (natStr (st.durable.length + 1))
          ⟨url, (pyGet source "description").getD ""⟩⟩) ∧
    ∀ r ∈ (Main.query_rag registry q ids net).2,
      r.headers = [("Content-Type", "application/json"),
        ("Accept", "application/json")] := by
  constructor
  · unfold Main.set_document_source
    rw [hurl]
  · intro r hr
    by_cases hreg : registry = []
    · subst hreg
      simp [Main.query_rag] at hr
    · cases ids with
      | none =>
        rw [main_query_rag_none registry q net hreg] at hr
        rcases List.mem_map.mp hr with ⟨p, _, rfl⟩
        rfl
      | some l =>
        by_cases hl : l = []
        · subst hl
          rw [main_query_rag_some_nil registry q net hreg,
            main_query_rag_none registry q net hreg] at hr
          rcases List.mem_map.mp hr with ⟨p, _, rfl⟩
          rfl
        · by_cases hsel : selectSources registry l = []
          · rw [main_query_rag_some_invalid registry q l net hreg hl hsel] at hr
            simp at hr
          · rw [main_query_rag_some registry q l net hreg hl hsel] at hr
            rcases List.mem_map.mp hr with ⟨p, _, rfl⟩
            rfl

/-- Witness for C7's amended theorem: registering with an apiKey field stores
only the url and an empty description. -/
theorem c7_amended_witness :
    pyGet [("url", "http://a.com"), ("apiKey", "secret-key")] "url"
      = some "http://a.com" ∧
    Main.set_document_source ⟨[], []⟩
        [("url", "http://a.com"), ("apiKey", "secret-key")]
      = ("Document source registered with ID: " ++ natStr 1,
         ⟨dictInsert [] (natStr 1) "http://a.com",
          dictInsert [] (natStr 1) ⟨"http://a.com", ""⟩⟩) :=
  ⟨by decide,
   (c7_amended_no_api_key_support ⟨[], []⟩
      [("url", "http://a.com"), ("apiKey", "secret-key")] "http://a.com" (by decide)
      [] "q" none constNet).1⟩

/-- C8: with a non-empty explicit source_ids list, query targets exactly the
subset of provided ids present in the registry (each target entry's id comes
from the provided list with its registry URL; ids not found are silently
dropped), and when no provided id is in the registry both variants apply the
same policy: they fail with the no-valid-ids error and issue no HTTP
request. -/
theorem c8_source_selection_policy (registry : List (String × String)) (q : String)
    (ids : List String) (net : Net) (hreg : registry ≠ []) (hids : ids ≠ []) :
    (∀ p ∈ selectSources registry ids, p.1 ∈ ids ∧ dictGet registry p.1 = some p.2) ∧
    (selectSources registry ids ≠ [] →
        Main.query_rag registry q (some ids) net =
          (String.intercalate "\n"
             ((selectSources registry ids).map fun p => Main.outcomeLine net p.1 p.2),
           (selectSources registry ids).map fun p => Main.mkRequest q p.2)) ∧
    ((∀ i ∈ ids, dictContains registry i = false) →
        Main.query_rag registry q (some ids) net
            = ("Error: No valid source IDs provided", []) ∧
        Server.query_rag registry q (some ids) net
            = ("Error: No valid source IDs provided", [])) := by
  refine ⟨fun p hp => selectSources_mem registry ids p hp, ?_, ?_⟩
  · intro hsel
    exact main_query_rag_some registry q ids net hreg hids hsel
  · intro hinv
    have hsel := selectSources_all_invalid registry ids hinv
    exact ⟨main_query_rag_some_invalid registry q ids net hreg hids hsel,
           server_query_rag_some_invalid registry q ids net hreg hids hsel⟩

/-- Witness for C8: a registry holding only id 1, queried with the unknown
id 2, fails with the no-valid-ids error and issues no request. -/
theorem c8_witness :
    ([("1", "http://a.com")] : List (String × String)) ≠ [] ∧
    (["2"] : List String) ≠ [] ∧
    Main.query_rag [("1", "http://a.com")] "q" (some ["2"]) constNet
      = ("Error: No valid source IDs provided", []) :=
  ⟨by decide, by decide,
   ((c8_source_selection_policy [("1", "http://a.com")] "q" ["2"] constNet
       (by decide) (by decide)).2.2 (by decide)).1⟩

/-- C9 counterexample: in main.py, after bulk-loading id 1 into memory while
the durable file is empty, a registration returns id 1 again — an id that is
currently mapped — and overwrites the bulk-loaded record. -/
theorem c9_counterexample :
    (Main.load_document_sources_from_file [] "custom.json"
        [("1", Main.SourceVal.str "http://a.com")]).2 = [("1", "http://a.com")] ∧
    dictContains [("1", "http://a.com")] "1" = true ∧
    Main.set_document_source ⟨[("1", "http://a.com")], []⟩ [("url", "http://b.com")]
      = ("Document source registered with ID: 1",
         ⟨[("1", "http://b.com")], [("1", ⟨"http://b.com", ""⟩)]⟩) := by
  exact ⟨by decide, by decide, by decide⟩

/-- C9 amended: in the server.py variant, whose registry is mutated only by
set_document_source, every successful registration returns the id
str(len(registry) + 1), which is never currently mapped; the new record is
appended, overwriting nothing, and afterward the new id maps to the submitted
URL.  In the main.py variant the id is derived from the durable file's length,
so after a bulk-load it can equal an id already mapped in memory and overwrite
that record. -/
theorem c9_amended_server_fresh_ids (r : List (String × String)) (h : ServerReach r)
    (url : String) (hs : (Server.urlparse_scheme_netloc url).1 ≠ "")
    (hn : (Server.urlparse_scheme_netloc url).2 ≠ "") :
    dictContains r (natStr (r.length + 1)) = false ∧
    Server.set_document_source r url
      = ("Document source registered with ID: " ++ natStr (r.length + 1),
         r ++ [(natStr (r.length + 1), url)]) ∧
    dictGet (r ++ [(natStr (r.length + 1), url)]) (natStr (r.length + 1))
      = some url := by
  have hkeys := serverReach_keys r h
  have hfresh : natStr (r.length + 1) ∉ r.map Prod.fst := by
    rw [hkeys]
    intro hmem
    rcases List.mem_map.mp hmem with ⟨i, hi, heq⟩
    have hinj := natStr_inj _ _ heq
    have hlt := List.mem_range.mp hi
    omega
  have hcont : dictContains r (natStr (r.length + 1)) = false :=
    (dictContains_eq_false r _).mpr hfresh
  refine ⟨hcont, ?_, dictGet_append_fresh r _ url hcont⟩
  have hset : Server.set_document_source r url
      = ("Document source registered with ID: " ++ natStr (r.length + 1),
         dictInsert r (natStr (r.length + 1)) url) := by
    unfold Server.set_document_source
    rw [if_neg (not_or.mpr ⟨hs, hn⟩)]
  rw [hset]
  unfold dictInsert
  rw [if_neg (by rw [hcont]; exact Bool.false_ne_true)]

/-- Witness for C9's amended theorem: the first registration into the empty
server registry gets the fresh id 1. -/
theorem c9_amended_witness :
    dictContains ([] : List (String × String)) (natStr 1) = false ∧
    Server.set_document_source [] "http://example.com"
      = ("Document source registered with ID: " ++ natStr 1,
         [(natStr 1, "http://example.com")]) ∧
    dictGet [(natStr 1, "http://example.com")] (natStr 1)
      = some "http://example.com" :=
  c9_amended_server_fresh_ids [] ServerReach.init "http://example.com"
    (by decide) (by decide)

/-- C10: with an explicit source_ids list that may contain duplicates or ids
out of registry order, query produces exactly one outcome per distinct valid
id: the target keys are the distinct provided-and-registered ids in order of
first occurrence in source_ids (not registry insertion order), without
duplicates, each mapped to its registry URL — in both variants. -/
theorem c10_explicit_ids_first_occurrence_order (registry : List (String × String))
    (q : String) (ids : List String) (net : Net) (hreg : registry ≠ [])
    (hids : ids ≠ []) (hsel : selectSources registry ids ≠ []) :
    (Main.query_rag registry q (some ids) net).1 =
      String.intercalate "\n"
        ((selectSources registry ids).map fun p => Main.outcomeLine net p.1 p.2) ∧
    (Server.query_rag registry q (some ids) net).1 =
      String.intercalate "\n"
        ((selectSources registry ids).map fun p => Server.outcomeLine net p.1 p.2) ∧
    (selectSources registry ids).map Prod.fst =
      firstOcc (ids.filter fun i => dictContains registry i) ∧
    ((selectSources registry ids).map Prod.fst).Nodup ∧
    (∀ p ∈ selectSources registry ids, dictGet registry p.1 = some p.2) := by
  refine ⟨?_, ?_, selectSources_fst registry ids, ?_,
    fun p hp => (selectSources_mem registry ids p hp).2⟩
  · rw [main_query_rag_some registry q ids net hreg hids hsel]
  · rw [server_query_rag_some registry q ids net hreg hids hsel]
  · rw [selectSources_fst registry ids]
    exact firstOcc_nodup _

/-- Witness for C10: ids ["2", "2", "1"] against a two-source registry target
ids ["2", "1"] — deduplicated, in first-occurrence order, not registry
order. -/
theorem c10_witness :
    ([("1", "u1"), ("2", "u2")] : List (String × String)) ≠ [] ∧
    (["2", "2", "1"] : List String) ≠ [] ∧
    selectSources [("1", "u1"), ("2", "u2")] ["2", "2", "1"] ≠ [] ∧
    (selectSources [("1", "u1"), ("2", "u2")] ["2", "2", "1"]).map Prod.fst
      = firstOcc ((["2", "2", "1"]).filter
          fun i => dictContains [("1", "u1"), ("2", "u2")] i) :=
  ⟨by decide, by decide, by decide,
   (c10_explicit_ids_first_occurrence_order [("1", "u1"), ("2", "u2")] "q"
       ["2", "2", "1"] constNet (by decide) (by decide) (by decide)).2.2.1⟩
